import Mathlib

/-!
Verification development for the `collective-vision` domain scanner.

The embedding below translates `src/app/actions.ts` (the scan engine
`scanDomain` together with its helpers `getSSLDetails`, `checkPort`,
`identifyCMS`) and `src/app/riskCalculator.ts` (`calculateFinancialRisk`)
into Lean.

Modelling conventions:
* JavaScript strings are modelled as `List Char` (`Str`), so that list
  induction is available for the normalisation lemmas.
* The network is modelled as an oracle record `Env`: each network
  operation the engine performs (TCP connect per port, TLS handshake,
  TXT resolution per name, HTTP fetch per URL) is a field mapping the
  request to its settled outcome.  `none` models the rejection / timeout
  path of the corresponding promise.  `Promise.all` preserves the order
  of its input array, so the port phase is a deterministic fold over the
  catalog regardless of completion timing.
* JavaScript numbers are IEEE-754 binary64.  Where the claims depend on
  that (the financial estimator), doubles are modelled exactly: a value
  class `JsRat` of unnormalised fractions with a round-to-nearest,
  ties-to-even operation `fl` at 53 significant bits (normal range; the
  quantities in the estimator are far from overflow and subnormals).
  Scan-engine arithmetic (score, day counts) is integer arithmetic,
  exact in binary64 at these magnitudes, and is modelled with `Int`.
-/

namespace CollectiveVision

/-- JavaScript strings, modelled as lists of characters. -/
abbrev Str := List Char

/-- Coercion from Lean string literals into the model. -/
def str (s : String) : Str := s.data

/-- ASCII lowercasing of one character.  The `/i` regex flag performs
ASCII-only canonicalisation for ASCII pattern characters (non-`u` regex
semantics), which this captures; the CMS markers are ASCII as well. -/
def asciiLower (c : Char) : Char :=
  if 65 ≤ c.toNat ∧ c.toNat ≤ 90 then Char.ofNat (c.toNat + 32) else c

/-- Case-insensitive test that `s` starts with the (lowercase ASCII)
pattern `pat`. -/
def startsWithCI (pat s : Str) : Bool :=
  (s.take pat.length).map asciiLower == pat

/-- First half of the regex `^(?:https?:\/\/)?(?:www\.)?` (case
insensitive, greedy, anchored): strip one optional scheme prefix. -/
def stripScheme (s : Str) : Str :=
  if startsWithCI (str "https://") s then s.drop 8
  else if startsWithCI (str "http://") s then s.drop 7
  else s

/-- Second half of the regex: strip one optional leading `www.`. -/
def stripWWW (s : Str) : Str :=
  if startsWithCI (str "www.") s then s.drop 4 else s

/-- JavaScript split at the first slash, index zero: everything before the first slash. -/
def splitHead (s : Str) : Str := s.takeWhile (fun c => c != '/')

/-- Domain normalisation from `scanDomain` (actions.ts line 107):
`domain.replace(/^(?:https?:\/\/)?(?:www\.)?/i, "").split('/')[0]`. -/
def normalize (domain : Str) : Str := splitHead (stripWWW (stripScheme domain))

/-- JavaScript truthiness of a `Headers.get` result: `null` and the
empty string are falsy, every other string is truthy. -/
def truthy : Option Str → Bool
  | none => false
  | some s => !s.isEmpty

/-- Substring test of JavaScript, includes: the needle occurs inside the haystack. -/
def jsIncludes (needle haystack : Str) : Bool := decide (needle <:+: haystack)

/-- Decimal digit character; the argument is always below 10 at every
call site (`n` when `n < 10`, or `n % 10`). -/
def digitChar : Nat → Char
  | 0 => '0' | 1 => '1' | 2 => '2' | 3 => '3' | 4 => '4'
  | 5 => '5' | 6 => '6' | 7 => '7' | 8 => '8' | _ => '9'

/-- Fuel-driven decimal printer (structural recursion so that the kernel
can evaluate it). -/
def natToStrAux : Nat → Nat → Str
  | 0, _ => []
  | fuel + 1, n =>
    if n < 10 then [digitChar n]
    else natToStrAux fuel (n / 10) ++ [digitChar (n % 10)]

/-- Decimal representation of a natural number. -/
def natToStr (n : Nat) : Str := natToStrAux (n + 1) n

/-- Decimal representation of an integer, as produced by JavaScript
template interpolation of an integral number. -/
def intToStr (i : Int) : Str :=
  if i < 0 then '-' :: natToStr i.natAbs else natToStr i.toNat

/-- Certificate data offered by the TLS peer: the `valid_to` instant in
epoch milliseconds and the issuer organisation (absent or empty models a
missing `issuer.O`). -/
structure SSLCert where
  validToMs : Int
  issuerO : Option Str
deriving DecidableEq

/-- Result record of `getSSLDetails` (actions.ts lines 8-33). -/
structure SSLSummary where
  daysRemaining : Int
  valid : Bool
  issuer : Str
deriving DecidableEq

/-- One HTTP response: header lookup (`Headers.get`, `null` for absent)
and the body text. -/
structure HttpResp where
  headers : Str → Option Str
  body : Str

/-- Network oracle for one scan: the settled outcome of every network
operation the engine can perform.  `none` is the promise-rejection /
timeout path of the respective helper. -/
structure Env where
  portOpen : Str → Nat → Bool
  tls : Str → Option SSLCert
  now : Int
  resolveTxt : Str → Option (List (List Str))
  fetch : Str → Option HttpResp

/-- JavaScript `a || "Unknown"` on `cert.issuer.O`: absent or empty
falls back to the default. -/
def jsOrStr (o : Option Str) (dflt : Str) : Str :=
  match o with
  | some s => if s.isEmpty then dflt else s
  | none => dflt

/-- Helper `getSSLDetails` (actions.ts lines 8-33): on a successful handshake
with a non-empty peer certificate, report the floor of the remaining
days and `valid: daysRemaining > 0`; otherwise `null`.  The floor of the
double division `(validTo - now) / 86400000` agrees with integer floor
division for every pair of integral millisecond timestamps in the
double-exact range, so it is modelled with `Int.fdiv`. -/
def getSSLDetails (env : Env) (domain : Str) : Option SSLSummary :=
  (env.tls domain).map fun cert =>
    let daysRemaining := Int.fdiv (cert.validToMs - env.now) 86400000
    ⟨daysRemaining, decide (0 < daysRemaining), jsOrStr cert.issuerO (str "Unknown")⟩

/-- One entry of the port catalog. -/
structure PortInfo where
  port : Nat
  service : Str
  risk : Str
deriving DecidableEq

/-- The fixed catalog `portsToCheck` (actions.ts lines 115-121). -/
def portsToCheck : List PortInfo :=
  [⟨21, str "FTP", str "High"⟩,
   ⟨22, str "SSH", str "Medium"⟩,
   ⟨3389, str "RDP", str "Critical"⟩,
   ⟨3306, str "MySQL", str "Critical"⟩,
   ⟨5432, str "PostgreSQL", str "Critical"⟩]

/-- The issue line `Open Port: ${port} (${service})`. -/
def mkPortIssue (p : PortInfo) : Str :=
  str "Open Port: " ++ natToStr p.port ++ str " (" ++ p.service ++ str ")"

/-- Output of one scoring phase: total deduction and the issue and pass
lines pushed by that block, in push order. -/
structure PhaseOut where
  ded : Int
  issues : List Str
  passes : List Str
deriving DecidableEq

/-- Port phase (actions.ts lines 114-133).  `Promise.all` settles in the
input order of the catalog, and the `forEach` deducts 20 per open
`Critical` port and 10 otherwise, pushes one issue per open port, and
one pass line when no port is open.  (`checkPort` itself never rejects,
so the surrounding `catch` is unreachable.) -/
def portPhase (env : Env) (cleanDomain : Str) : PhaseOut :=
  let portResults := portsToCheck.map fun p => (p, env.portOpen cleanDomain p.port)
  let openResults := portResults.filter fun r => r.2
  { ded := (openResults.map fun r => if r.1.risk == str "Critical" then (20 : Int) else 10).sum
    issues := openResults.map fun r => mkPortIssue r.1
    passes := if openResults.length == 0 then [str "Critical Ports are Firewalled"] else [] }

/-- TLS phase (actions.ts lines 136-143). -/
def sslPhase (env : Env) (cleanDomain : Str) : PhaseOut :=
  match getSSLDetails env cleanDomain with
  | some ssl =>
    if !ssl.valid then ⟨20, [str "SSL Certificate EXPIRED"], []⟩
    else if ssl.daysRemaining < 14 then
      ⟨10, [str "SSL Expires soon (" ++ intToStr ssl.daysRemaining ++ str " days)"], []⟩
    else ⟨0, [], [str "SSL Valid (" ++ intToStr ssl.daysRemaining ++ str " days left)"]⟩
  | none => ⟨20, [str "No SSL Certificate found"], []⟩

/-- SPF evaluation on the apex TXT answer (actions.ts lines 147-151).
The `.catch(() => [])` on the lookup maps a resolution failure to the
empty record list before this logic runs. -/
def spfEval (txtOpt : Option (List (List Str))) : PhaseOut :=
  match (txtOpt.getD []).flatten.find? (fun r => jsIncludes (str "v=spf1") r) with
  | none => ⟨20, [str "Missing SPF Record"], []⟩
  | some spf =>
    if jsIncludes (str "+all") spf then ⟨20, [str "SPF Record unsafe (\x27+all\x27)"], []⟩
    else ⟨0, [], [str "SPF Record Detected"]⟩

/-- DMARC evaluation on the `_dmarc` TXT answer (actions.ts lines
153-156), again behind a failure-absorbing `.catch(() => [])`. -/
def dmarcEval (txtOpt : Option (List (List Str))) : PhaseOut :=
  match (txtOpt.getD []).flatten.find? (fun r => jsIncludes (str "v=DMARC1") r) with
  | none => ⟨30, [str "Missing DMARC Record"], []⟩
  | some dmarc =>
    if jsIncludes (str "p=none") dmarc then ⟨10, [str "DMARC Policy weak (\x27p=none\x27)"], []⟩
    else ⟨0, [], [str "DMARC Record Active"]⟩

/-- DNS phase (actions.ts lines 146-157).  Both TXT lookups carry their
own `.catch(() => [])`, and nothing after them can throw, so the
enclosing `catch (e) { issues.push("DNS Lookup failed") }` is dead code
and does not occur in the model. -/
def dnsPhase (env : Env) (cleanDomain : Str) : PhaseOut :=
  let spf := spfEval (env.resolveTxt cleanDomain)
  let dmarc := dmarcEval (env.resolveTxt (str "_dmarc." ++ cleanDomain))
  ⟨spf.ded + dmarc.ded, spf.issues ++ dmarc.issues, spf.passes ++ dmarc.passes⟩

/-- Function `identifyCMS` (actions.ts lines 49-102): ordered signature list,
first match wins.  `html.toLowerCase()` is modelled with ASCII
lowercasing; every signature is ASCII. -/
def identifyCMS (html : Str) (headers : Str → Option Str) : Option Str :=
  let lowerHtml := html.map asciiLower
  if jsIncludes (str "/wp-content/") lowerHtml ||
     jsIncludes (str "/wp-includes/") lowerHtml ||
     jsIncludes (str "wp-json") lowerHtml ||
     jsIncludes (str "class=\x22wp-block") lowerHtml ||
     jsIncludes (str "id=\x22wp-admin-bar") lowerHtml ||
     (match headers (str "x-powered-by") with
      | some v => jsIncludes (str "WP Engine") v
      | none => false) then
    some (str "WordPress")
  else if jsIncludes (str "cdn.shopify.com") lowerHtml ||
     jsIncludes (str "window.shopify") lowerHtml ||
     jsIncludes (str "shopify-section") lowerHtml then
    some (str "Shopify")
  else if jsIncludes (str "static1.squarespace.com") lowerHtml ||
     jsIncludes (str "squarespace-core") lowerHtml ||
     headers (str "x-served-by") == some (str "Squarespace") then
    some (str "Squarespace")
  else if jsIncludes (str "wix.com") lowerHtml ||
     jsIncludes (str "wix-warmup-data") lowerHtml ||
     truthy (headers (str "x-wix-request-id")) then
    some (str "Wix")
  else if jsIncludes (str "joomla") lowerHtml ||
     jsIncludes (str "/templates/system/css/system.css") lowerHtml then
    some (str "Joomla")
  else if jsIncludes (str "drupal") lowerHtml ||
     jsIncludes (str "sites/default/files") lowerHtml then
    some (str "Drupal")
  else none

/-- Output of the web phase: a scoring phase plus the fingerprint. -/
structure HttpOut where
  ded : Int
  issues : List Str
  passes : List Str
  cms : Option Str
deriving DecidableEq

/-- Web security phase (actions.ts lines 159-191): one GET to
`https://<cleanDomain>`; on any transport failure one issue and nothing
else; on success the CMS fingerprint and the three header checks, in
source order (HSTS 10, no-sniff 5, clickjacking 5). -/
def httpPhase (env : Env) (cleanDomain : Str) : HttpOut :=
  match env.fetch (str "https://" ++ cleanDomain) with
  | none => ⟨0, [str "Website Scan Failed (Firewall may be blocking scanner)"], [], none⟩
  | some resp =>
    let cms := identifyCMS resp.body resp.headers
    let hsts : Bool := truthy (resp.headers (str "strict-transport-security"))
    let sniff : Bool := truthy (resp.headers (str "x-content-type-options"))
    let xf := resp.headers (str "x-frame-options")
    let csp := resp.headers (str "content-security-policy")
    let frameProt : Bool := truthy xf ||
      (match csp with
       | some c => !c.isEmpty && jsIncludes (str "frame-ancestors") c
       | none => false)
    { ded := (if hsts then 0 else 10) + (if sniff then 0 else 5) + (if frameProt then 0 else 5)
      issues := (if hsts then [] else [str "Missing HSTS Header"]) ++
                (if sniff then [] else [str "Missing X-Content-Type-Options"]) ++
                (if frameProt then [] else [str "Missing Clickjacking Protection"])
      passes := (if hsts then [str "HSTS Enabled"] else []) ++
                (if sniff then [str "Content Sniffing Protection Active"] else []) ++
                (if frameProt then [str "Clickjacking Protection Active"] else [])
      cms := cms }

/-- The report returned by `scanDomain` (actions.ts line 193). -/
structure ScanReport where
  score : Int
  issues : List Str
  passes : List Str
  cms : Option Str
deriving DecidableEq

/-- The running score before the final `Math.max(0, score)` clamp. -/
def rawScore (domain : Str) (env : Env) : Int :=
  let cd := normalize domain
  100 - (portPhase env cd).ded - (sslPhase env cd).ded
    - (dnsPhase env cd).ded - (httpPhase env cd).ded

/-- Main engine `scanDomain` (actions.ts lines 105-194): normalise, run the four
phases, accumulate deductions from the starting ceiling of 100, clamp
at 0, and return the report.  There is no validation of the normalised
hostname: the function returns a report for every input string. -/
def scanDomain (domain : Str) (env : Env) : ScanReport :=
  let cd := normalize domain
  let p := portPhase env cd
  let s := sslPhase env cd
  let d := dnsPhase env cd
  let h := httpPhase env cd
  { score := max 0 (100 - p.ded - s.ded - d.ded - h.ded)
    issues := p.issues ++ s.issues ++ d.issues ++ h.issues
    passes := p.passes ++ s.passes ++ d.passes ++ h.passes
    cms := h.cms }

/-- Bit length, fuel-driven so the kernel can evaluate it:
`bitLenAux fuel n` is the number of binary digits of `n` (0 for 0)
whenever `fuel` is large enough, which `bitLen` ensures. -/
def bitLenAux : Nat → Nat → Nat
  | 0, _ => 0
  | fuel + 1, n => if n = 0 then 0 else bitLenAux fuel (n / 2) + 1

/-- Number of binary digits of `n`. -/
def bitLen (n : Nat) : Nat := bitLenAux n n

/-- Unnormalised fraction used to model IEEE-754 binary64 values and
the exact intermediate results that get rounded into them.  Every
constructor call in this development keeps `den` positive.  Rounded
values (`fl` outputs) are kept in canonical dyadic form: `den` a power
of two and `num` odd or `den = 1`, so that equal doubles are equal
terms. -/
structure JsRat where
  num : Int
  den : Int
deriving DecidableEq

/-- Embed an integer (all integers that appear here are exactly
representable in binary64, or arise as `Math.ceil` of an integral
double, which is again exact). -/
def ofInt (i : Int) : JsRat := ⟨i, 1⟩

/-- Negation (preserves canonical form). -/
def jrNeg (q : JsRat) : JsRat := ⟨-q.num, q.den⟩

/-- Multiply by `2 ^ e`. -/
def mul2 (q : JsRat) (e : Int) : JsRat :=
  if 0 ≤ e then ⟨q.num * (2 ^ e.toNat : Nat), q.den⟩
  else ⟨q.num, q.den * (2 ^ (-e).toNat : Nat)⟩

/-- Test of `q < 2 ^ k`, for `q.den > 0`. -/
def jrLtPow2 (q : JsRat) (k : Int) : Bool :=
  if 0 ≤ k then q.num < q.den * (2 ^ k.toNat : Nat)
  else q.num * (2 ^ (-k).toNat : Nat) < q.den

/-- Floor of the base-two logarithm of a positive `q`: the bit-length estimate is off by at
most one, and the comparisons correct it. -/
def floorLog2 (q : JsRat) : Int :=
  let k : Int := (bitLen q.num.natAbs : Int) - (bitLen q.den.natAbs : Int)
  if !jrLtPow2 q (k + 1) then k + 1
  else if jrLtPow2 q k then k - 1 else k

/-- Canonical dyadic form of `m / 2 ^ k`: strip common factors of two. -/
def canon2 : Int → Nat → JsRat
  | m, 0 => ⟨m, 1⟩
  | m, k + 1 => if m % 2 = 0 then canon2 (m / 2) k else ⟨m, ((2 ^ (k + 1) : Nat) : Int)⟩

/-- Round a positive value to 53 significant bits, round to nearest,
ties to even: scale into `[2 ^ 52, 2 ^ 53)`, split off the fractional
part, and compare it with one half. -/
def roundPos (q : JsRat) : JsRat :=
  let e : Int := floorLog2 q - 52
  let scaled := mul2 q (-e)
  let m0 : Int := Int.fdiv scaled.num scaled.den
  let frac2 : Int := 2 * (scaled.num - m0 * scaled.den)
  let m : Int :=
    if frac2 < scaled.den then m0
    else if scaled.den < frac2 then m0 + 1
    else if m0 % 2 = 0 then m0 else m0 + 1
  if 0 ≤ e then ⟨m * (2 ^ e.toNat : Nat), 1⟩ else canon2 m (-e).toNat

/-- IEEE-754 binary64 rounding (round to nearest, ties to even) of an
exact rational, in the normal range; the estimator never leaves it. -/
def fl (q : JsRat) : JsRat :=
  if q.num = 0 then ⟨0, 1⟩
  else if q.num < 0 then jrNeg (roundPos (jrNeg q)) else roundPos q

/-- Double multiplication: exact product, then one rounding. -/
def jsMul (a b : JsRat) : JsRat := fl ⟨a.num * b.num, a.den * b.den⟩

/-- Double division: exact quotient, then one rounding.  (Division by
zero would be an infinity in JavaScript; no call site divides by
zero.) -/
def jsDiv (a b : JsRat) : JsRat :=
  if b.num = 0 then ⟨0, 1⟩
  else if 0 ≤ b.num then fl ⟨a.num * b.den, a.den * b.num⟩
  else fl ⟨-(a.num * b.den), a.den * (-b.num)⟩

/-- Ceiling of `q` as an integer, for `q.den > 0`. -/
def jrCeilInt (q : JsRat) : Int := -(Int.fdiv (-q.num) q.den)

/-- Model of `Math.ceil`: exact on every finite double (the result is integral
and of no greater magnitude, hence representable whenever the input
regime is, and inputs at or above `2 ^ 53` are already integral). -/
def jsCeil (q : JsRat) : JsRat := ofInt (jrCeilInt q)

/-- A decimal literal `num / den` of the source text, parsed to the
nearest double. -/
def jsLit (num : Int) (den : Int) : JsRat := fl ⟨num, den⟩

/-- One row of `INDUSTRY_DATA` (riskCalculator.ts lines 3-9).  The base
costs are integers, exactly representable; the risk multipliers are the
parsed decimal literals. -/
structure IndustryInfo where
  baseCost : Int
  riskMultiplier : JsRat
deriving DecidableEq

/-- The fixed industry table. -/
def INDUSTRY_DATA : List (Str × IndustryInfo) :=
  [(str "marketing", ⟨4500000, jsLit 12 10⟩),
   (str "finance", ⟨5600000, jsLit 15 10⟩),
   (str "retail", ⟨2000000, jsLit 10 10⟩),
   (str "manufacturing", ⟨1500000, jsLit 9 10⟩),
   (str "other", ⟨1000000, jsLit 10 10⟩)]

/-- Result of the JavaScript property read `INDUSTRY_DATA[industry]`.
`INDUSTRY_DATA` is an object literal, so the read falls through to
`Object.prototype` for its member names: those reads yield a (truthy)
function or object without a `baseCost` field, not `undefined`. -/
inductive LookupResult where
  | found (info : IndustryInfo)
  | inherited
  | undefined
deriving DecidableEq

/-- The own property names of `Object.prototype`; reading any of them
on a plain object literal yields a truthy value. -/
def objectPrototypeProps : List Str :=
  [str "constructor", str "hasOwnProperty", str "isPrototypeOf",
   str "propertyIsEnumerable", str "toLocaleString", str "toString",
   str "valueOf", str "__defineGetter__", str "__defineSetter__",
   str "__lookupGetter__", str "__lookupSetter__", str "__proto__"]

/-- Lookup `INDUSTRY_DATA[industry]` with JavaScript property-lookup
semantics: own property first, then the `Object.prototype` chain, then
`undefined`. -/
def getIndustryData (industry : Str) : LookupResult :=
  match INDUSTRY_DATA.find? (fun e => e.1 == industry) with
  | some e => .found e.2
  | none =>
    if objectPrototypeProps.contains industry then .inherited else .undefined

/-- The arithmetic core of the estimator: given the selected `baseCost`
and size factor, evaluate
`Math.ceil(baseCost * sizeFactor * vulnerabilityFactor / 100) * 100`
in binary64 (riskCalculator.ts lines 23-26). -/
def lossOf (baseCost : Int) (sizeFactor : JsRat) (securityScore : Int) : JsRat :=
  let vulnerabilityFactor := jsDiv (ofInt (100 - securityScore)) (ofInt 100)
  let estimatedLoss := jsMul (jsMul (ofInt baseCost) sizeFactor) vulnerabilityFactor
  jsMul (jsCeil (jsDiv estimatedLoss (ofInt 100))) (ofInt 100)

/-- Function `calculateFinancialRisk` (riskCalculator.ts lines 11-27).  `none`
models the `NaN` result produced when the lookup hits an inherited
`Object.prototype` member: it is truthy, so `|| INDUSTRY_DATA["other"]`
does not replace it, and `data.baseCost` is then `undefined`, which
poisons the arithmetic to `NaN`. -/
def calculateFinancialRisk (industry : Str) (employeeCount : Int)
    (securityScore : Int) : Option JsRat :=
  let data := match getIndustryData industry with
    | .found info => LookupResult.found info
    | .inherited => .inherited
    | .undefined => getIndustryData (str "other")
  let sizeFactor : JsRat :=
    if employeeCount < 10 then jsLit 2 1000
    else if employeeCount < 50 then jsLit 5 1000
    else jsLit 15 1000
  match data with
  | .found info => some (lossOf info.baseCost sizeFactor securityScore)
  | .inherited => none
  | .undefined => none

/-- Ceiling division over the integers, for `b > 0`. -/
def intCeilDiv (a b : Int) : Int := -(Int.fdiv (-a) b)

/-- The exact real-arithmetic loss formula of the specification,
`ceil((baseCost * (sfNum / sfDen) * ((100 - score) / 100)) / 100) * 100`,
evaluated over the rationals and expressed with integer ceiling
division. -/
def specLossFormula (baseCost sfNum sfDen score : Int) : Int :=
  intCeilDiv (baseCost * sfNum * (100 - score)) (sfDen * 100 * 100) * 100

/-- The port phase as an explicit function of the five probe outcomes;
`portPhase env cd` is definitionally this combinator applied to the
five oracle answers, which lets the 32 cases be checked by `decide`. -/
def portPhaseOf (b1 b2 b3 b4 b5 : Bool) : PhaseOut :=
  portPhase
    { portOpen := fun _ p =>
        if p = 21 then b1 else if p = 22 then b2
        else if p = 3389 then b3 else if p = 3306 then b4 else b5
      tls := fun _ => none
      now := 0
      resolveTxt := fun _ => none
      fetch := fun _ => none } []

/-- Predicate of claim C7: the issue line mentions DMARC. -/
def mentionsDMARC (i : Str) : Bool := jsIncludes (str "DMARC") i

/-- Environment update that changes the answer of exactly one TXT
lookup, used to compare two scans that differ only in that probe. -/
def updateResolve (env : Env) (name : Str) (v : Option (List (List Str))) : Env :=
  { env with resolveTxt := fun n => if n == name then v else env.resolveTxt n }

/-- A response carrying all three audited security headers. -/
def respAll : HttpResp :=
  { headers := fun n =>
      if n == str "strict-transport-security" then some (str "max-age=63072000")
      else if n == str "x-content-type-options" then some (str "nosniff")
      else if n == str "x-frame-options" then some (str "DENY")
      else none
    body := [] }

/-- A concrete oracle: every port closed, a certificate valid for 100
more days, every TXT resolution failing, and a fetch that succeeds with
all three security headers. -/
def env0 : Env :=
  { portOpen := fun _ _ => false
    tls := fun _ => some ⟨8640000000, some (str "DigiCert Inc")⟩
    now := 0
    resolveTxt := fun _ => none
    fetch := fun _ => some respAll }

/-- Variant of `env0` with the HTTP fetch failing. -/
def env0fail : Env := { env0 with fetch := fun _ => none }

/-- Variant of `env0` with a strong (enforcing) DMARC record at
`_dmarc.example.com`. -/
def envB : Env :=
  updateResolve env0 (str "_dmarc.example.com") (some [[str "v=DMARC1; p=reject"]])

/-! ### Supporting lemmas -/

/-- Every port deduction is 10 or 20, so the phase total is nonnegative. -/
theorem portPhase_ded_nonneg (env : Env) (cd : Str) : 0 ≤ (portPhase env cd).ded := by
  refine List.sum_nonneg ?_
  intro x hx
  rcases List.mem_map.1 hx with ⟨r, _, rfl⟩
  split <;> norm_num

/-- The TLS deduction is one of 0, 10, 20. -/
theorem sslPhase_ded_nonneg (env : Env) (cd : Str) : 0 ≤ (sslPhase env cd).ded := by
  cases h : getSSLDetails env cd <;> simp only [sslPhase, h]
  · norm_num
  · split_ifs <;> norm_num

/-- The SPF deduction is 0 or 20. -/
theorem spfEval_ded_nonneg (t : Option (List (List Str))) : 0 ≤ (spfEval t).ded := by
  simp only [spfEval]
  split <;> norm_num
  split <;> norm_num

/-- The DMARC deduction is 0, 10 or 30. -/
theorem dmarcEval_ded_nonneg (t : Option (List (List Str))) : 0 ≤ (dmarcEval t).ded := by
  simp only [dmarcEval]
  split <;> norm_num
  split <;> norm_num

/-- The DNS deduction is nonnegative. -/
theorem dnsPhase_ded_nonneg (env : Env) (cd : Str) : 0 ≤ (dnsPhase env cd).ded :=
  add_nonneg (spfEval_ded_nonneg _) (dmarcEval_ded_nonneg _)

/-- The web-phase deduction is nonnegative. -/
theorem httpPhase_ded_nonneg (env : Env) (cd : Str) : 0 ≤ (httpPhase env cd).ded := by
  cases h : env.fetch (str "https://" ++ cd) <;> simp only [httpPhase, h]
  · norm_num
  · split <;> split <;> split <;> norm_num

/-! ### C1 -/

/-- C1: for every input domain string and every combination of probe
outcomes the `score` field of the report returned by `scanDomain` lies
in the closed interval `[0, 100]`: deductions only ever subtract from
the starting ceiling of 100, and the final `Math.max(0, score)` floors
the total at 0. -/
theorem scanDomain_score_in_range (domain : Str) (env : Env) :
    0 ≤ (scanDomain domain env).score ∧ (scanDomain domain env).score ≤ 100 := by
  have hp := portPhase_ded_nonneg env (normalize domain)
  have hs := sslPhase_ded_nonneg env (normalize domain)
  have hd := dnsPhase_ded_nonneg env (normalize domain)
  have hh := httpPhase_ded_nonneg env (normalize domain)
  constructor
  · exact le_max_left 0 _
  · exact max_le (by norm_num) (by omega)

/-! ### C4 -/

/-- Exhaustive check of the port phase over all 32 outcome vectors. -/
theorem portPhaseOf_spec (b1 b2 b3 b4 b5 : Bool) :
    portPhaseOf b1 b2 b3 b4 b5 =
      { ded := (if b1 then (10 : Int) else 0) + (if b2 then 10 else 0) +
               (if b3 then 20 else 0) + (if b4 then 20 else 0) + (if b5 then 20 else 0)
        issues := (if b1 then [str "Open Port: 21 (FTP)"] else []) ++
                  (if b2 then [str "Open Port: 22 (SSH)"] else []) ++
                  (if b3 then [str "Open Port: 3389 (RDP)"] else []) ++
                  (if b4 then [str "Open Port: 3306 (MySQL)"] else []) ++
                  (if b5 then [str "Open Port: 5432 (PostgreSQL)"] else [])
        passes := if b1 || b2 || b3 || b4 || b5 then []
                  else [str "Critical Ports are Firewalled"] } := by
  revert b1 b2 b3 b4 b5
  decide

/-- C4: for every assignment of open/closed to the five catalog ports,
the port phase deducts 20 per open critical-tier port (3389, 3306,
5432) and 10 per open non-critical port (21, 22), emits exactly one
issue line naming each open port and its service, emits the single pass
line iff no port is open, and the issue lines appear in the fixed
catalog order 21, 22, 3389, 3306, 5432 (in the implementation,
`Promise.all` preserves the catalog order of its input array, so probe
completion order cannot reach the output). -/
theorem portPhase_spec (env : Env) (cd : Str) :
    portPhase env cd =
      { ded := (if env.portOpen cd 21 then (10 : Int) else 0) +
               (if env.portOpen cd 22 then 10 else 0) +
               (if env.portOpen cd 3389 then 20 else 0) +
               (if env.portOpen cd 3306 then 20 else 0) +
               (if env.portOpen cd 5432 then 20 else 0)
        issues := (if env.portOpen cd 21 then [str "Open Port: 21 (FTP)"] else []) ++
                  (if env.portOpen cd 22 then [str "Open Port: 22 (SSH)"] else []) ++
                  (if env.portOpen cd 3389 then [str "Open Port: 3389 (RDP)"] else []) ++
                  (if env.portOpen cd 3306 then [str "Open Port: 3306 (MySQL)"] else []) ++
                  (if env.portOpen cd 5432 then [str "Open Port: 5432 (PostgreSQL)"] else [])
        passes := if env.portOpen cd 21 || env.portOpen cd 22 || env.portOpen cd 3389 ||
                     env.portOpen cd 3306 || env.portOpen cd 5432 then []
                  else [str "Critical Ports are Firewalled"] } :=
  portPhaseOf_spec (env.portOpen cd 21) (env.portOpen cd 22) (env.portOpen cd 3389)
    (env.portOpen cd 3306) (env.portOpen cd 5432)

/-! ### C2 -/

/-- C2 counterexample: the input `"https://"` normalises to the empty
hostname, yet `scanDomain` does not abort: no `InvalidDomain` failure
exists in the code, and a complete report (with the findings of all four phases and a clamped score) is returned. -/
theorem scanDomain_report_on_empty_hostname :
    normalize (str "https://") = [] ∧
    scanDomain (str "https://") env0 =
      { score := 50
        issues := [str "Missing SPF Record", str "Missing DMARC Record"]
        passes := [str "Critical Ports are Firewalled", str "SSL Valid (100 days left)",
                   str "HSTS Enabled", str "Content Sniffing Protection Active",
                   str "Clickjacking Protection Active"]
        cms := none } := by decide

/-- C2 (amended): `scanDomain` never aborts.  For every input string,
including every input whose normalisation is empty, the scan completes
and returns a report; an input with empty normalisation is scanned
exactly like the empty hostname itself.  (The claimed `InvalidDomain`
failure does not exist in the code.) -/
theorem scanDomain_total_on_empty (s : Str) (env : Env) (h : normalize s = []) :
    scanDomain s env = scanDomain [] env := by
  have h0 : normalize ([] : Str) = [] := rfl
  simp only [scanDomain, h, h0]

/-- Witness for the amended C2 at the concrete input `"https://"`. -/
theorem scanDomain_total_on_empty_w :
    scanDomain (str "https://") env0 = scanDomain [] env0 :=
  scanDomain_total_on_empty (str "https://") env0 (by decide)

/-! ### C3 -/

/-- Splitting at the first slash ignores everything from the slash on. -/
theorem splitHead_append_slash (s u : Str) : splitHead (s ++ '/' :: u) = splitHead s := by
  induction s with
  | nil => rfl
  | cons c cs ih =>
    simp only [splitHead] at ih
    simp [splitHead, List.takeWhile_cons, ih]

/-- C3 counterexample: the claimed identity fails when the raw string
itself begins with `www.`: wrapping strips only one `www.`, while
normalising the bare string strips the one it starts with. -/
theorem normalize_wrap_cex :
    normalize (str "https://www." ++ str "www.a" ++ str "/path") ≠ normalize (str "www.a") := by
  decide

/-- C3 (amended): for every raw domain string that does not itself
begin with a (case-insensitive) `http://` or `https://` scheme prefix
or a `www.` prefix, normalising `"https://www." + s + "/path"` agrees
with normalising `s`. -/
theorem normalize_wrap_of_plain_host (s : Str)
    (h1 : startsWithCI (str "https://") s = false)
    (h2 : startsWithCI (str "http://") s = false)
    (h3 : startsWithCI (str "www.") s = false) :
    normalize (str "https://www." ++ s ++ str "/path") = normalize s := by
  have hL : stripWWW (stripScheme (str "https://www." ++ s ++ str "/path")) = s ++ str "/path" :=
    rfl
  have hR : stripWWW (stripScheme s) = s := by
    simp [stripScheme, stripWWW, h1, h2, h3]
  calc normalize (str "https://www." ++ s ++ str "/path")
      = splitHead (s ++ str "/path") := by rw [normalize, hL]
    _ = splitHead s := splitHead_append_slash s (str "path")
    _ = normalize s := by rw [normalize, hR]

/-- Witness for the amended C3 at the concrete host `example.com`. -/
theorem normalize_wrap_of_plain_host_w :
    normalize (str "https://www." ++ str "example.com" ++ str "/path") =
      normalize (str "example.com") :=
  normalize_wrap_of_plain_host (str "example.com") (by decide) (by decide) (by decide)

/-! ### C5 -/

/-- Validity flag of every summary `getSSLDetails` produces, as
computed on line 27 of actions.ts. -/
theorem getSSLDetails_valid_eq (env : Env) (cd : Str) (s : SSLSummary)
    (hs : getSSLDetails env cd = some s) : s.valid = decide (0 < s.daysRemaining) := by
  simp only [getSSLDetails] at hs
  rcases Option.map_eq_some'.1 hs with ⟨cert, _, rfl⟩
  rfl

/-- C5: the TLS phase deducts exactly 20 when no certificate summary is
obtained or the certificate is expired, exactly 10 when the certificate
is valid but has fewer than 14 days remaining, and otherwise deducts
nothing and adds the single pass line citing the days remaining; and in
every summary produced the `valid` flag holds iff `daysRemaining > 0`. -/
theorem sslPhase_spec (env : Env) (cd : Str) :
    (∀ s, getSSLDetails env cd = some s → ((s.valid = true) ↔ 0 < s.daysRemaining)) ∧
    (getSSLDetails env cd = none →
      sslPhase env cd = ⟨20, [str "No SSL Certificate found"], []⟩) ∧
    (∀ s, getSSLDetails env cd = some s → s.daysRemaining ≤ 0 →
      sslPhase env cd = ⟨20, [str "SSL Certificate EXPIRED"], []⟩) ∧
    (∀ s, getSSLDetails env cd = some s → 0 < s.daysRemaining → s.daysRemaining < 14 →
      sslPhase env cd =
        ⟨10, [str "SSL Expires soon (" ++ intToStr s.daysRemaining ++ str " days)"], []⟩) ∧
    (∀ s, getSSLDetails env cd = some s → 14 ≤ s.daysRemaining →
      sslPhase env cd =
        ⟨0, [], [str "SSL Valid (" ++ intToStr s.daysRemaining ++ str " days left)"]⟩) := by
  refine ⟨?_, ?_, ?_, ?_, ?_⟩
  · intro s hs
    rw [getSSLDetails_valid_eq env cd s hs]
    exact decide_eq_true_iff
  · intro h
    simp only [sslPhase, h]
  · intro s hs hle
    have hv : s.valid = false := by
      rw [getSSLDetails_valid_eq env cd s hs]
      exact decide_eq_false (by omega)
    simp only [sslPhase, hs, hv]
    rfl
  · intro s hs h1 h2
    have hv : s.valid = true := by
      rw [getSSLDetails_valid_eq env cd s hs]
      exact decide_eq_true h1
    simp only [sslPhase, hs, hv]
    simp [h2]
  · intro s hs h14
    have hv : s.valid = true := by
      rw [getSSLDetails_valid_eq env cd s hs]
      exact decide_eq_true (by omega)
    simp only [sslPhase, hs, hv]
    have : ¬ s.daysRemaining < 14 := by omega
    simp [this]

/-- Witness for C5: in `env0` the certificate has 100 days remaining,
and the phase produces exactly the valid pass line. -/
theorem sslPhase_spec_w :
    sslPhase env0 (str "example.com") = ⟨0, [], [str "SSL Valid (100 days left)"]⟩ := by
  have h : getSSLDetails env0 (str "example.com") =
      some ⟨100, true, str "DigiCert Inc"⟩ := by decide
  have h2 := (sslPhase_spec env0 (str "example.com")).2.2.2.2
    ⟨100, true, str "DigiCert Inc"⟩ h (by decide)
  exact h2.trans (by decide)

/-! ### C6 -/

/-- Every port issue line comes from the fixed catalog. -/
theorem portPhase_issue_shape (env : Env) (cd : Str) :
    ∀ i ∈ (portPhase env cd).issues, ∃ p ∈ portsToCheck, i = mkPortIssue p := by
  intro i hi
  simp only [portPhase] at hi
  rcases List.mem_map.1 hi with ⟨r, hr, rfl⟩
  rcases List.mem_map.1 (List.mem_filter.1 hr).1 with ⟨p, hp, rfl⟩
  exact ⟨p, hp, rfl⟩

/-- The TLS issue list is empty or one of three specific lines. -/
theorem sslPhase_issue_shape (env : Env) (cd : Str) :
    (sslPhase env cd).issues = [] ∨
    (sslPhase env cd).issues = [str "No SSL Certificate found"] ∨
    (sslPhase env cd).issues = [str "SSL Certificate EXPIRED"] ∨
    ∃ d : Int, (sslPhase env cd).issues =
      [str "SSL Expires soon (" ++ intToStr d ++ str " days)"] := by
  cases h : getSSLDetails env cd <;> simp only [sslPhase, h]
  · tauto
  · split_ifs <;> simp

/-- The SPF issue list is empty or one of two specific lines. -/
theorem spfEval_issue_shape (t : Option (List (List Str))) :
    (spfEval t).issues = [] ∨
    (spfEval t).issues = [str "Missing SPF Record"] ∨
    (spfEval t).issues = [str "SPF Record unsafe (\x27+all\x27)"] := by
  simp only [spfEval]
  split
  · tauto
  · split <;> simp

/-- The DMARC issue list is empty or one of two specific lines. -/
theorem dmarcEval_issue_shape (t : Option (List (List Str))) :
    (dmarcEval t).issues = [] ∨
    (dmarcEval t).issues = [str "Missing DMARC Record"] ∨
    (dmarcEval t).issues = [str "DMARC Policy weak (\x27p=none\x27)"] := by
  simp only [dmarcEval]
  split
  · tauto
  · split <;> simp

/-- Every web-phase issue line is one of four specific lines. -/
theorem httpPhase_issue_shape (env : Env) (cd : Str) :
    ∀ i ∈ (httpPhase env cd).issues,
      i = str "Website Scan Failed (Firewall may be blocking scanner)" ∨
      i = str "Missing HSTS Header" ∨
      i = str "Missing X-Content-Type-Options" ∨
      i = str "Missing Clickjacking Protection" := by
  intro i hi
  cases h : env.fetch (str "https://" ++ cd) <;> simp only [httpPhase, h] at hi
  · simp at hi
    tauto
  · split_ifs at hi <;> simp at hi <;> tauto

/-- Decimal digits of the fuel printer. -/
theorem natToStrAux_digit_range :
    ∀ fuel n c, c ∈ natToStrAux fuel n → 48 ≤ c.toNat ∧ c.toNat ≤ 57 := by
  have hd : ∀ m : Nat, 48 ≤ (digitChar m).toNat ∧ (digitChar m).toNat ≤ 57 := by
    intro m
    unfold digitChar
    split <;> decide
  intro fuel
  induction fuel with
  | zero => intro n c h; simp [natToStrAux] at h
  | succ f ih =>
    intro n c h
    simp only [natToStrAux] at h
    split at h
    · rcases List.mem_singleton.1 h with rfl
      exact hd n
    · rcases List.mem_append.1 h with h1 | h1
      · exact ih _ _ h1
      · rcases List.mem_singleton.1 h1 with rfl
        exact hd (n % 10)

/-- Characters of an interpolated integer are a sign or digits. -/
theorem intToStr_char_range (i : Int) (c : Char) (h : c ∈ intToStr i) :
    c.toNat = 45 ∨ (48 ≤ c.toNat ∧ c.toNat ≤ 57) := by
  simp only [intToStr] at h
  split at h
  · rcases List.mem_cons.1 h with rfl | h1
    · left; rfl
    · exact Or.inr (natToStrAux_digit_range _ _ _ h1)
  · exact Or.inr (natToStrAux_digit_range _ _ _ h)

/-- A string with no capital M cannot mention DMARC. -/
theorem mentionsDMARC_eq_false_of_noM (l : Str) (h : 'M' ∉ l) :
    mentionsDMARC l = false := by
  simp only [mentionsDMARC, jsIncludes, decide_eq_false_iff_not]
  intro hinf
  exact h (hinf.subset (by decide))

/-- The parametrised TLS issue line does not mention DMARC. -/
theorem expires_soon_noDMARC (d : Int) :
    mentionsDMARC (str "SSL Expires soon (" ++ intToStr d ++ str " days)") = false := by
  apply mentionsDMARC_eq_false_of_noM
  intro hM
  rcases List.mem_append.1 hM with h1 | h1
  · rcases List.mem_append.1 h1 with h2 | h2
    · exact absurd h2 (by decide)
    · rcases intToStr_char_range _ _ h2 with h3 | h3
      · exact absurd h3 (by decide)
      · exact absurd h3 (by decide)
  · exact absurd h1 (by decide)

/-- The catch-all line `DNS Lookup failed` of the dead catch handler
in the source never occurs in a report. -/
theorem dns_lookup_failed_never_emitted (domain : Str) (env : Env) :
    str "DNS Lookup failed" ∉ (scanDomain domain env).issues := by
  intro h
  have hsplit : (scanDomain domain env).issues =
      (portPhase env (normalize domain)).issues ++ (sslPhase env (normalize domain)).issues ++
      ((spfEval (env.resolveTxt (normalize domain))).issues ++
        (dmarcEval (env.resolveTxt (str "_dmarc." ++ normalize domain))).issues) ++
      (httpPhase env (normalize domain)).issues := rfl
  rw [hsplit] at h
  rcases List.mem_append.1 h with h1 | h1
  · rcases List.mem_append.1 h1 with h2 | h2
    · rcases List.mem_append.1 h2 with h3 | h3
      · rcases portPhase_issue_shape env (normalize domain) _ h3 with ⟨p, hp, he⟩
        revert hp he
        revert p
        decide
      · rcases sslPhase_issue_shape env (normalize domain) with hs | hs | hs | ⟨d, hs⟩ <;>
          rw [hs] at h3
        · exact absurd h3 (by decide)
        · exact absurd h3 (by decide)
        · exact absurd h3 (by decide)
        · have hmem := List.mem_singleton.1 h3
          have h4 : (str "DNS Lookup failed").headI =
              (str "SSL Expires soon (" ++ intToStr d ++ str " days)").headI :=
            congrArg List.headI hmem
          have h5 : ('D' : Char) = 'S' := h4
          exact absurd h5 (by decide)
    · rcases List.mem_append.1 h2 with h3 | h3
      · rcases spfEval_issue_shape (env.resolveTxt (normalize domain)) with hs | hs | hs <;>
          rw [hs] at h3 <;> exact absurd h3 (by decide)
      · rcases dmarcEval_issue_shape
            (env.resolveTxt (str "_dmarc." ++ normalize domain)) with hs | hs | hs <;>
          rw [hs] at h3 <;> exact absurd h3 (by decide)
  · rcases httpPhase_issue_shape env (normalize domain) _ h1 with hs | hs | hs | hs <;>
      exact absurd hs (by decide)

/-- C6 counterexample: in `env0` every TXT resolution fails, in
particular the apex lookup; the scan then reports two DNS issue lines
(missing SPF and missing DMARC), not the single claimed line, while all
other phases pass. -/
theorem dns_apex_failure_two_issues :
    env0.resolveTxt (normalize (str "example.com")) = none ∧
    (scanDomain (str "example.com") env0).issues =
      [str "Missing SPF Record", str "Missing DMARC Record"] := by decide

/-- C6 (amended): a top-level DNS failure (the apex TXT resolution
fails) is absorbed by the failure-absorbing catch attached to the
lookup and treated
as "no records": the DNS phase reports the missing-SPF line followed by
the DMARC evaluation of the separate `_dmarc` lookup (a second issue
line when that also fails), the catch-all `DNS Lookup failed` line is
never emitted, and all remaining phases are still performed and
reported. -/
theorem dns_apex_failure_degrades (env : Env) (domain : Str)
    (hApex : env.resolveTxt (normalize domain) = none) :
    (dnsPhase env (normalize domain)).issues =
      str "Missing SPF Record" ::
        (dmarcEval (env.resolveTxt (str "_dmarc." ++ normalize domain))).issues ∧
    (scanDomain domain env).issues =
      (portPhase env (normalize domain)).issues ++ (sslPhase env (normalize domain)).issues ++
        (str "Missing SPF Record" ::
          (dmarcEval (env.resolveTxt (str "_dmarc." ++ normalize domain))).issues) ++
        (httpPhase env (normalize domain)).issues ∧
    str "DNS Lookup failed" ∉ (scanDomain domain env).issues := by
  have h1 : (dnsPhase env (normalize domain)).issues =
      str "Missing SPF Record" ::
        (dmarcEval (env.resolveTxt (str "_dmarc." ++ normalize domain))).issues := by
    show (spfEval (env.resolveTxt (normalize domain))).issues ++ _ = _
    rw [hApex]
    rfl
  refine ⟨h1, ?_, dns_lookup_failed_never_emitted domain env⟩
  calc (scanDomain domain env).issues
      = (portPhase env (normalize domain)).issues ++ (sslPhase env (normalize domain)).issues ++
          (dnsPhase env (normalize domain)).issues ++
          (httpPhase env (normalize domain)).issues := rfl
    _ = _ := by rw [h1]

/-- Witness for the amended C6 in the concrete environment `env0`. -/
theorem dns_apex_failure_degrades_w :
    (dnsPhase env0 (normalize (str "example.com"))).issues =
      str "Missing SPF Record" ::
        (dmarcEval (env0.resolveTxt (str "_dmarc." ++ normalize (str "example.com")))).issues ∧
    (scanDomain (str "example.com") env0).issues =
      (portPhase env0 (normalize (str "example.com"))).issues ++
        (sslPhase env0 (normalize (str "example.com"))).issues ++
        (str "Missing SPF Record" ::
          (dmarcEval (env0.resolveTxt
            (str "_dmarc." ++ normalize (str "example.com")))).issues) ++
        (httpPhase env0 (normalize (str "example.com"))).issues ∧
    str "DNS Lookup failed" ∉ (scanDomain (str "example.com") env0).issues :=
  dns_apex_failure_degrades env0 (str "example.com") rfl

/-! ### C7 -/

/-- No port issue line mentions DMARC. -/
theorem countP_port_noDMARC (env : Env) (cd : Str) :
    (portPhase env cd).issues.countP mentionsDMARC = 0 := by
  rw [List.countP_eq_zero]
  intro i hi
  rcases portPhase_issue_shape env cd i hi with ⟨p, hp, rfl⟩
  clear hi
  revert hp
  revert p
  decide

/-- No TLS issue line mentions DMARC. -/
theorem countP_ssl_noDMARC (env : Env) (cd : Str) :
    (sslPhase env cd).issues.countP mentionsDMARC = 0 := by
  rcases sslPhase_issue_shape env cd with hs | hs | hs | ⟨d, hs⟩ <;> rw [hs]
  · decide
  · decide
  · decide
  · simpa [List.countP_cons] using expires_soon_noDMARC d

/-- No SPF issue line mentions DMARC. -/
theorem countP_spf_noDMARC (t : Option (List (List Str))) :
    (spfEval t).issues.countP mentionsDMARC = 0 := by
  rcases spfEval_issue_shape t with hs | hs | hs <;> rw [hs] <;> decide

/-- No web-phase issue line mentions DMARC. -/
theorem countP_http_noDMARC (env : Env) (cd : Str) :
    (httpPhase env cd).issues.countP mentionsDMARC = 0 := by
  rw [List.countP_eq_zero]
  intro i hi
  rcases httpPhase_issue_shape env cd i hi with hs | hs | hs | hs <;> subst hs <;> decide

/-- C7: comparing two scans that agree on every probe outcome except
the `_dmarc` TXT answer, where one scan finds no record containing
`v=DMARC1` while the other finds an enforcing record (no `p=none`):
the DMARC-absent scan scores exactly 30 less before clamping, and its
report contains exactly one issue line mentioning DMARC. -/
theorem dmarc_missing_delta (env : Env) (domain : Str) (dA : Option (List (List Str)))
    (hA : (dA.getD []).flatten.find? (fun r => jsIncludes (str "v=DMARC1") r) = none)
    (rB : Str)
    (hB : ((env.resolveTxt (str "_dmarc." ++ normalize domain)).getD []).flatten.find?
        (fun r => jsIncludes (str "v=DMARC1") r) = some rB)
    (hBs : jsIncludes (str "p=none") rB = false) :
    rawScore domain (updateResolve env (str "_dmarc." ++ normalize domain) dA) =
      rawScore domain env - 30 ∧
    (scanDomain domain
        (updateResolve env (str "_dmarc." ++ normalize domain) dA)).issues.countP
      mentionsDMARC = 1 := by
  have hAq : (updateResolve env (str "_dmarc." ++ normalize domain) dA).resolveTxt
      (str "_dmarc." ++ normalize domain) = dA := by
    simp [updateResolve]
  have hApex : (updateResolve env (str "_dmarc." ++ normalize domain) dA).resolveTxt
      (normalize domain) = env.resolveTxt (normalize domain) := by
    simp only [updateResolve]
    have hne : ((normalize domain) == (str "_dmarc." ++ normalize domain)) = false := by
      refine beq_eq_false_iff_ne.2 ?_
      intro h
      have hlen := congrArg List.length h
      rw [List.length_append] at hlen
      have h7 : (str "_dmarc.").length = 7 := rfl
      rw [h7] at hlen
      omega
    rw [hne]
    rfl
  constructor
  · have eq1 : rawScore domain (updateResolve env (str "_dmarc." ++ normalize domain) dA) =
        100 - (portPhase env (normalize domain)).ded - (sslPhase env (normalize domain)).ded -
          ((spfEval ((updateResolve env (str "_dmarc." ++ normalize domain) dA).resolveTxt
              (normalize domain))).ded +
           (dmarcEval ((updateResolve env (str "_dmarc." ++ normalize domain) dA).resolveTxt
              (str "_dmarc." ++ normalize domain))).ded) -
          (httpPhase env (normalize domain)).ded := rfl
    have eq2 : rawScore domain env =
        100 - (portPhase env (normalize domain)).ded - (sslPhase env (normalize domain)).ded -
          ((spfEval (env.resolveTxt (normalize domain))).ded +
           (dmarcEval (env.resolveTxt (str "_dmarc." ++ normalize domain))).ded) -
          (httpPhase env (normalize domain)).ded := rfl
    rw [eq1, eq2, hApex, hAq]
    have hdA : (dmarcEval dA).ded = 30 := by simp [dmarcEval, hA]
    have hdB : (dmarcEval (env.resolveTxt (str "_dmarc." ++ normalize domain))).ded = 0 := by
      simp [dmarcEval, hB, hBs]
    rw [hdA, hdB]
    ring
  · have base : (scanDomain domain
        (updateResolve env (str "_dmarc." ++ normalize domain) dA)).issues =
        (portPhase env (normalize domain)).issues ++ (sslPhase env (normalize domain)).issues ++
          ((spfEval ((updateResolve env (str "_dmarc." ++ normalize domain) dA).resolveTxt
              (normalize domain))).issues ++
           (dmarcEval ((updateResolve env (str "_dmarc." ++ normalize domain) dA).resolveTxt
              (str "_dmarc." ++ normalize domain))).issues) ++
          (httpPhase env (normalize domain)).issues := rfl
    rw [base, hApex, hAq]
    have hdA : (dmarcEval dA).issues = [str "Missing DMARC Record"] := by simp [dmarcEval, hA]
    rw [hdA]
    simp only [List.countP_append, countP_port_noDMARC, countP_ssl_noDMARC,
      countP_spf_noDMARC, countP_http_noDMARC]
    decide

/-- Witness for C7: `envB` carries the enforcing record
`v=DMARC1; p=reject` at `_dmarc.example.com`; removing it costs
exactly 30 raw points and produces the single DMARC issue line. -/
theorem dmarc_missing_delta_w :
    rawScore (str "example.com")
        (updateResolve envB (str "_dmarc." ++ normalize (str "example.com")) none) =
      rawScore (str "example.com") envB - 30 ∧
    (scanDomain (str "example.com")
        (updateResolve envB (str "_dmarc." ++ normalize (str "example.com")) none)).issues.countP
      mentionsDMARC = 1 :=
  dmarc_missing_delta envB (str "example.com") none (by decide)
    (str "v=DMARC1; p=reject") (by decide) (by decide)

/-! ### C8 -/

/-- C8: when the HTTP GET fails entirely, the report records exactly
one web-audit issue line, applies no header deductions (the clamped
score is computed from the port, TLS and DNS phases alone), keeps every
previously computed issue and pass line unchanged, and carries no CMS
fingerprint. -/
theorem http_failure_degraded (domain : Str) (env : Env)
    (h : env.fetch (str "https://" ++ normalize domain) = none) :
    scanDomain domain env =
      { score := max 0 (100 - (portPhase env (normalize domain)).ded -
          (sslPhase env (normalize domain)).ded - (dnsPhase env (normalize domain)).ded)
        issues := (portPhase env (normalize domain)).issues ++
          (sslPhase env (normalize domain)).issues ++
          (dnsPhase env (normalize domain)).issues ++
          [str "Website Scan Failed (Firewall may be blocking scanner)"]
        passes := (portPhase env (normalize domain)).passes ++
          (sslPhase env (normalize domain)).passes ++
          (dnsPhase env (normalize domain)).passes
        cms := none } := by
  have hh : httpPhase env (normalize domain) =
      ⟨0, [str "Website Scan Failed (Firewall may be blocking scanner)"], [], none⟩ := by
    simp only [httpPhase, h]
  simp [scanDomain, hh]

/-- Witness for C8 in the concrete environment `env0fail`. -/
theorem http_failure_degraded_w :
    scanDomain (str "example.com") env0fail =
      { score := 50
        issues := [str "Missing SPF Record", str "Missing DMARC Record",
                   str "Website Scan Failed (Firewall may be blocking scanner)"]
        passes := [str "Critical Ports are Firewalled", str "SSL Valid (100 days left)"]
        cms := none } := by
  have h := http_failure_degraded (str "example.com") env0fail rfl
  exact h.trans (by decide)

/-! ### C9 -/

set_option maxRecDepth 400000

/-- C9 counterexample: at industry `finance`, employee count 10 (size
factor 0.005) and score 45, the code returns 15500 in binary64
arithmetic, while the claimed exact formula
`ceil(baseCost * sizeFactor * (100 - score) / 100 / 100) * 100`
yields 15400: the double product slightly exceeds the exact value and
`Math.ceil` amplifies the excess to a full rounding unit. -/
theorem estimator_float_cex :
    calculateFinancialRisk (str "finance") 10 45 = some (ofInt 15500) ∧
    specLossFormula 5600000 5 1000 45 = 15400 := by decide

set_option maxHeartbeats 12000000 in
/-- In the smallest size bucket (factor 0.002), binary64 evaluation
agrees with the exact formula at every base cost of the table and every
score in `[0, 100]` (exhaustive check over all 505 inputs). -/
theorem lossOf_small_bucket :
    ∀ bc ∈ ([4500000, 5600000, 2000000, 1500000, 1000000] : List Int),
      ∀ s ∈ Finset.Icc (0 : Int) 100,
        lossOf bc (jsLit 2 1000) s = ofInt (specLossFormula bc 2 1000 s) := by decide

/-- Unfolding of the estimator for a key found in the table, in the
smallest size bucket. -/
theorem calcRisk_found_small (key : Str) (info : IndustryInfo)
    (hfind : getIndustryData key = .found info) (ec score : Int) (hec : ec < 10) :
    calculateFinancialRisk key ec score = some (lossOf info.baseCost (jsLit 2 1000) score) := by
  simp only [calculateFinancialRisk, hfind]
  rw [if_pos hec]

/-- C9 (amended): for every industry key of the table, every employee
count below 10 (size factor 0.002) and every score in `[0, 100]`, the
estimator returns exactly
`ceil((baseCost * 0.002 * (100 - score) / 100) / 100) * 100`, the
`riskMultiplier` column never enters the result, and in particular
`estimateLoss("finance", 5, 45) = 6200`; in the larger size buckets the
binary64 evaluation can exceed the exact formula by one rounding unit
of 100 (see the counterexample). -/
theorem estimator_small_bucket_formula (name : Str) (info : IndustryInfo)
    (hmem : (name, info) ∈ INDUSTRY_DATA) (ec score : Int)
    (hec : ec < 10) (h0 : 0 ≤ score) (h1 : score ≤ 100) :
    calculateFinancialRisk name ec score =
      some (ofInt (specLossFormula info.baseCost 2 1000 score)) ∧
    calculateFinancialRisk (str "finance") 5 45 = some (ofInt 6200) := by
  refine ⟨?_, by decide⟩
  have hmem5 : info.baseCost ∈ ([4500000, 5600000, 2000000, 1500000, 1000000] : List Int) ∧
      getIndustryData name = .found info := by
    fin_cases hmem <;> exact ⟨by decide, by decide⟩
  rw [calcRisk_found_small name info hmem5.2 ec score hec,
    lossOf_small_bucket info.baseCost hmem5.1 score (Finset.mem_Icc.2 ⟨h0, h1⟩)]

/-- Witness for the amended C9 at `("finance", 5, 45)`. -/
theorem estimator_small_bucket_formula_w :
    calculateFinancialRisk (str "finance") 5 45 =
      some (ofInt (specLossFormula (5600000 : Int) 2 1000 45)) ∧
    calculateFinancialRisk (str "finance") 5 45 = some (ofInt 6200) :=
  estimator_small_bucket_formula (str "finance") ⟨5600000, jsLit 15 10⟩
    (by decide) 5 45 (by decide) (by decide) (by decide)

/-! ### C10 -/

/-- C10 counterexample: `"toString"` is not a table key, yet the lookup
finds the inherited `Object.prototype.toString`, which is truthy; the
`|| INDUSTRY_DATA["other"]` fallback therefore does not fire,
`data.baseCost` is `undefined`, and the result is `NaN` — not the 1100
returned for `"other"`. -/
theorem industry_prototype_cex :
    calculateFinancialRisk (str "toString") 5 45 = none ∧
    calculateFinancialRisk (str "other") 5 45 = some (ofInt 1100) := by decide

/-- C10 (amended): for every industry string that is neither one of the
five table keys nor the name of an `Object.prototype` member, the
lookup yields `undefined`, the `||` fallback fires, and the estimator
returns exactly the value it returns for `"other"`; for the inherited
member names the result is `NaN` instead (see the counterexample). -/
theorem industry_fallback (industry : Str) (ec score : Int)
    (hkeys : ∀ e ∈ INDUSTRY_DATA, e.1 ≠ industry)
    (hproto : industry ∉ objectPrototypeProps) :
    calculateFinancialRisk industry ec score =
      calculateFinancialRisk (str "other") ec score := by
  have hfind : INDUSTRY_DATA.find? (fun e => e.1 == industry) = none := by
    rw [List.find?_eq_none]
    intro e he hb
    exact hkeys e he (eq_of_beq hb)
  have hlook : getIndustryData industry = .undefined := by
    simp only [getIndustryData, hfind]
    rw [if_neg]
    intro hc
    exact hproto (List.mem_of_elem_eq_true hc)
  simp only [calculateFinancialRisk]
  rw [hlook]
  exact rfl

/-- Witness for the amended C10 at the non-key `"banking"`. -/
theorem industry_fallback_w :
    calculateFinancialRisk (str "banking") 5 45 = calculateFinancialRisk (str "other") 5 45 :=
  industry_fallback (str "banking") 5 45 (by decide) (by decide)

end CollectiveVision

